import Mathlib

/-!
Verification development for the Epic FHIR patient portal backend
(`src/main.py`).  The Python source works on parsed JSON values
(dictionaries, lists, strings, numbers, booleans, None), so the shallow
embedding models JSON values as an inductive type and reproduces the
source's access idioms (`dict.get` with defaults, Python truthiness,
f-string formatting, `str.title()`, `str.strip()`, `str.lower()`).

Numbers are modelled as integers: every numeric literal the claims
exercise is an integer, and no claim depends on float behaviour.
Extraction helpers that read a string-typed field return the stated
default when the field is absent; on a field that is present with a
value of the wrong JSON type the Python source would raise (an
ill-typed resource), which is outside the scope of the claims — all of
which quantify over resources whose present fields carry the FHIR
types the source expects.
-/

/-- A parsed JSON value, as produced by `response.json()` in the source. -/
inductive Json where
  | null : Json
  | bool (b : Bool) : Json
  | num (n : Int) : Json
  | str (s : String) : Json
  | arr (xs : List Json) : Json
  | obj (kvs : List (String × Json)) : Json

/-- Python truthiness of a JSON value: `None`, `False`, `0`, `""`, `[]`,
`{}` are falsy, everything else truthy. -/
def pyTruthy : Json → Bool
  | Json.null => false
  | Json.bool b => b
  | Json.num n => n != 0
  | Json.str s => s != ""
  | Json.arr xs => !xs.isEmpty
  | Json.obj kvs => !kvs.isEmpty

/-- `d.get(k)` on a Python dict: `some` value when the key is present,
`none` (Python `None`) otherwise.  On a non-dict the source would raise;
the claims never reach that case. -/
def jGet : Json → String → Option Json
  | Json.obj kvs, k => kvs.lookup k
  | _, _ => none

/-- `d.get(k, default)` on a Python dict. -/
def jGetD (j : Json) (k : String) (dflt : Json) : Json :=
  (jGet j k).getD dflt

/-- `d.get(k, default)` where the source expects a string value:
the present string if the key holds one, else the default. -/
def jGetStrD (j : Json) (k : String) (dflt : String) : String :=
  match jGet j k with
  | some (Json.str s) => s
  | _ => dflt

/-- `d.get(k, default)` where the source expects an integer value. -/
def jGetIntD (j : Json) (k : String) (dflt : Int) : Int :=
  match jGet j k with
  | some (Json.num n) => n
  | _ => dflt

/-- Truthiness of `d.get(k)`'s result (`if d.get(k):` in the source);
an absent key yields Python `None`, which is falsy. -/
def optTruthy : Option Json → Bool
  | some v => pyTruthy v
  | none => false

/-- The list held by a JSON array (the source only iterates values it
has already tested truthy, i.e. non-empty lists). -/
def asArr : Json → List Json
  | Json.arr xs => xs
  | _ => []

/-- Python `str()` / f-string interpolation for the values the source
formats: strings, numbers, booleans and `None`.  Containers never reach
string formatting in the translated paths. -/
def pyStr : Json → String
  | Json.null => "None"
  | Json.bool b => if b then "True" else "False"
  | Json.num n => toString n
  | Json.str s => s
  | Json.arr _ => ""
  | Json.obj _ => ""

/-- Python `str.lower()` (ASCII, which covers the source's inputs). -/
def pyLower (s : String) : String := ⟨s.data.map Char.toLower⟩

/-- Python `str.strip()`: drop leading and trailing whitespace. -/
def pyStrip (s : String) : String :=
  ⟨((s.data.dropWhile Char.isWhitespace).reverse.dropWhile Char.isWhitespace).reverse⟩

/-- One step of Python `str.title()`: upper-case a letter that follows a
non-letter, lower-case a letter that follows a letter. -/
def pyTitleAux : Bool → List Char → List Char
  | _, [] => []
  | prevAlpha, c :: rest =>
    let c2 := if c.isAlpha then (if prevAlpha then c.toLower else c.toUpper) else c
    c2 :: pyTitleAux c.isAlpha rest

/-- Python `str.title()` (ASCII letters, which covers the FHIR codes the
source title-cases). -/
def pyTitle (s : String) : String := ⟨pyTitleAux false s.data⟩

/-- Truthiness of an optional string parameter (`if error:` on a
FastAPI query parameter that defaults to `None`). -/
def optStrTruthy : Option String → Bool
  | some s => s != ""
  | none => false

/-! ## PKCE generator (`generate_code_verifier`, `generate_code_challenge`)

`secrets.token_urlsafe(64)` is the URL-safe, unpadded base64 encoding of
64 bytes from a cryptographically secure random source; the embedding
takes those random bytes as an explicit argument.  `hashlib.sha256` is
implemented bit-faithfully (FIPS 180-4) on byte lists. -/

/-- The URL-safe base64 alphabet (RFC 4648 section 5), as used by both
`secrets.token_urlsafe` and `base64.urlsafe_b64encode`. -/
def b64UrlAlphabet : List Char :=
  "ABCDEFGHIJKLMNOPQRSTUVWXYZabcdefghijklmnopqrstuvwxyz0123456789-_".data

/-- The alphabet character for a 6-bit group. -/
def b64Char (n : Nat) : Char :=
  b64UrlAlphabet.get ⟨n % 64, by
    rw [show b64UrlAlphabet.length = 64 from rfl]
    exact Nat.mod_lt _ (by decide)⟩

/-- URL-safe base64 encoding with the `=` padding stripped
(`base64.urlsafe_b64encode(data).rstrip(b'=')`). -/
def b64EncNoPad : List Nat → List Char
  | [] => []
  | [a] => [b64Char (a / 4), b64Char (a % 4 * 16)]
  | [a, b] => [b64Char (a / 4), b64Char (a % 4 * 16 + b / 16), b64Char (b % 16 * 4)]
  | a :: b :: c :: rest =>
    b64Char (a / 4) :: b64Char (a % 4 * 16 + b / 16) ::
      b64Char (b % 16 * 4 + c / 64) :: b64Char (c % 64) :: b64EncNoPad rest

/-- Reduction modulo 2^32, the word size of SHA-256. -/
def m32 (x : Nat) : Nat := x % 4294967296

/-- 32-bit right rotation. -/
def rotr32 (x n : Nat) : Nat := m32 (x >>> n ||| x <<< (32 - n))

def sha256Ch (x y z : Nat) : Nat := (x &&& y) ^^^ ((x ^^^ 4294967295) &&& z)

def sha256Maj (x y z : Nat) : Nat := (x &&& y) ^^^ (x &&& z) ^^^ (y &&& z)

def bigSigma0 (x : Nat) : Nat := rotr32 x 2 ^^^ rotr32 x 13 ^^^ rotr32 x 22

def bigSigma1 (x : Nat) : Nat := rotr32 x 6 ^^^ rotr32 x 11 ^^^ rotr32 x 25

def smallSigma0 (x : Nat) : Nat := rotr32 x 7 ^^^ rotr32 x 18 ^^^ (x >>> 3)

def smallSigma1 (x : Nat) : Nat := rotr32 x 17 ^^^ rotr32 x 19 ^^^ (x >>> 10)

/-- The SHA-256 round constants. -/
def K256 : List Nat :=
  [1116352408, 1899447441, 3049323471, 3921009573, 961987163,
   1508970993, 2453635748, 2870763221, 3624381080, 310598401,
   607225278, 1426881987, 1925078388, 2162078206, 2614888103,
   3248222580, 3835390401, 4022224774, 264347078, 604807628,
   770255983, 1249150122, 1555081692, 1996064986, 2554220882,
   2821834349, 2952996808, 3210313671, 3336571891, 3584528711,
   113926993, 338241895, 666307205, 773529912, 1294757372,
   1396182291, 1695183700, 1986661051, 2177026350, 2456956037,
   2730485921, 2820302411, 3259730800, 3345764771, 3516065817,
   3600352804, 4094571909, 275423344, 430227734, 506948616,
   659060556, 883997877, 958139571, 1322822218, 1537002063,
   1747873779, 1955562222, 2024104815, 2227730452, 2361852424,
   2428436474, 2756734187, 3204031479, 3329325298]

/-- The SHA-256 working state: eight 32-bit words. -/
structure Sha256State where
  a : Nat
  b : Nat
  c : Nat
  d : Nat
  e : Nat
  f : Nat
  g : Nat
  h : Nat

/-- The SHA-256 initial hash value. -/
def sha256H0 : Sha256State :=
  ⟨1779033703, 3144134277, 1013904242, 2773480762, 1359893119, 2600822924, 528734635, 1541459225⟩

/-- Extend 16 message words to the 64-word schedule. -/
def sha256Schedule (w16 : List Nat) : List Nat :=
  (List.range 48).foldl (fun w _ =>
    let n := w.length
    w ++ [m32 (w.getD (n - 16) 0 + smallSigma0 (w.getD (n - 15) 0) +
               w.getD (n - 7) 0 + smallSigma1 (w.getD (n - 2) 0))]) w16

/-- The 64-round SHA-256 compression function. -/
def sha256Compress (st : Sha256State) (w : List Nat) : Sha256State :=
  (List.range 64).foldl (fun s i =>
    let t1 := m32 (s.h + bigSigma1 s.e + sha256Ch s.e s.f s.g + K256.getD i 0 + w.getD i 0)
    let t2 := m32 (bigSigma0 s.a + sha256Maj s.a s.b s.c)
    ⟨m32 (t1 + t2), s.a, s.b, s.c, m32 (s.d + t1), s.e, s.f, s.g⟩) st

/-- SHA-256 message padding: `0x80`, zeros to 56 mod 64, then the
bit length as an 8-byte big-endian integer. -/
def sha256Pad (msg : List Nat) : List Nat :=
  msg ++ [128] ++ List.replicate ((119 - msg.length % 64) % 64) 0
      ++ (List.range 8).map (fun i => ((8 * msg.length) >>> (8 * (7 - i))) % 256)

/-- A big-endian 32-bit word from 4 bytes. -/
def bytesToWord : List Nat → Nat
  | [a, b, c, d] => a * 16777216 + b * 65536 + c * 256 + d
  | _ => 0

/-- The 16 words of 64-byte chunk number `i` of the padded message. -/
def chunkWords (padded : List Nat) (i : Nat) : List Nat :=
  (List.range 16).map (fun j => bytesToWord ((padded.drop (64 * i + 4 * j)).take 4))

/-- The 4 big-endian bytes of a 32-bit word. -/
def wordBytes (w : Nat) : List Nat :=
  [w / 16777216 % 256, w / 65536 % 256, w / 256 % 256, w % 256]

/-- SHA-256 of a byte string, as a list of 32 digest bytes. -/
def sha256 (msg : List Nat) : List Nat :=
  let padded := sha256Pad msg
  let fin := (List.range (padded.length / 64)).foldl (fun st i =>
    let c := sha256Compress st (sha256Schedule (chunkWords padded i))
    ⟨m32 (st.a + c.a), m32 (st.b + c.b), m32 (st.c + c.c), m32 (st.d + c.d),
     m32 (st.e + c.e), m32 (st.f + c.f), m32 (st.g + c.g), m32 (st.h + c.h)⟩) sha256H0
  wordBytes fin.a ++ wordBytes fin.b ++ wordBytes fin.c ++ wordBytes fin.d ++
    wordBytes fin.e ++ wordBytes fin.f ++ wordBytes fin.g ++ wordBytes fin.h

/-- UTF-8 encoding of an ASCII string (`verifier.encode('utf-8')`);
every character the generator emits is ASCII. -/
def utf8Bytes (cs : List Char) : List Nat := cs.map Char.toNat

/-- `generate_code_verifier` (main.py line 39-41):
`secrets.token_urlsafe(64)[:128]`, with the 64 random bytes explicit. -/
def generate_code_verifier (randomBytes : List Nat) : List Char :=
  (b64EncNoPad randomBytes).take 128

/-- `generate_code_challenge` (main.py line 44-47): the URL-safe base64
encoding, `=`-stripped, of the SHA-256 digest of the UTF-8 verifier. -/
def generate_code_challenge (verifier : List Char) : List Char :=
  b64EncNoPad (sha256 (utf8Bytes verifier))

/-! ## Session store and authorization flow (`sessions`, `callback`, `logout`)

The process-wide `sessions` dict maps state tokens to session dicts;
keys are unique, so an association list with first-match lookup models
it.  The outbound POST to the token endpoint is modelled by passing the
response the authorization server would return; each flow function also
returns the number of outbound network calls it performed. -/

/-- The `sessions` dict (main.py line 32): state token → session dict. -/
abbrev SessionStore := List (String × Json)

/-- An HTTP response from the authorization or FHIR server: its status
code, raw text body, and parsed JSON body. -/
structure HttpResponse where
  status : Nat
  text : String
  json : Json

/-- `sessions[k] = v`: replace the entry for `k` in place, or append a
fresh one. -/
def storeSet (store : SessionStore) (k : String) (v : Json) : SessionStore :=
  if (store.lookup k).isSome then
    store.map (fun p => if p.1 == k then (k, v) else p)
  else
    store ++ [(k, v)]

/-- `logout` (main.py line 686-691): delete the session if present and
return the success message either way. -/
def logout (store : SessionStore) (sessionId : String) : SessionStore × String :=
  (if (store.lookup sessionId).isSome then
     store.filter (fun p => p.1 != sessionId)
   else store,
   "Logged out successfully")

/-- `callback` (main.py line 84-147).  `code`, `state`, `error` are the
optional query parameters; `tokenResp` is the token endpoint's response
to the one possible POST.  Returns the updated store, the redirect URL,
and how many outbound network calls were made.  The `except` handler
(line 145-147) only concerns transport exceptions, which the response
oracle does not produce. -/
def callback (tokenResp : HttpResponse) (store : SessionStore)
    (code state error : Option String) : SessionStore × String × Nat :=
  if optStrTruthy error then
    (store, "/?error=" ++ error.getD "", 0)
  else if !optStrTruthy code || !optStrTruthy state then
    (store, "/?error=missing_params", 0)
  else
    let st := state.getD ""
    match store.lookup st with
    | none => (store, "/?error=invalid_state", 0)
    | some sess =>
      if !optTruthy (jGet sess "code_verifier") then
        (store, "/?error=missing_verifier", 0)
      else
        -- the POST to EPIC_CONFIG["token_url"] happens here (1 call)
        if tokenResp.status != 200 then
          (store, "/?error=token_error&details=" ++ toString tokenResp.status, 1)
        else
          let tokenJson := tokenResp.json
          let patientId := jGet tokenJson "patient"
          let accessToken := jGet tokenJson "access_token"
          if !optTruthy patientId || !optTruthy accessToken then
            (store, "/?error=missing_token_data", 1)
          else
            let newSess := Json.obj
              [("status", Json.str "authenticated"),
               ("access_token", accessToken.getD Json.null),
               ("patient_id", patientId.getD Json.null),
               ("token_type", jGetD tokenJson "token_type" (Json.str "Bearer")),
               ("expires_in", jGetD tokenJson "expires_in" Json.null),
               ("scope", jGetD tokenJson "scope" Json.null)]
            (storeSet store st newSess, "/dashboard?session=" ++ st, 1)

/-- The session guard shared by the four `/api/...` endpoints
(`if not session or session.get("status") != "authenticated"`). -/
def sessionAuthed (store : SessionStore) (sessionId : String) : Bool :=
  match store.lookup sessionId with
  | none => false
  | some sess =>
    pyTruthy sess &&
      (match jGet sess "status" with
       | some (Json.str s) => s == "authenticated"
       | _ => false)

/-! ## Shared extraction helpers (main.py line 694-776) -/

/-- `get_category_text`'s per-entry extraction: the entry's truthy
`text`, else the first coding with a truthy `display` (the inner loop
breaks at the first hit), else nothing. -/
def categoryEntryText (cat : Json) : Option String :=
  let t := jGetStrD cat "text" ""
  if t != "" then some t
  else if optTruthy (jGet cat "coding") then
    (asArr (jGetD cat "coding" (Json.arr []))).findSome? (fun coding =>
      let d := jGetStrD coding "display" ""
      if d != "" then some d else none)
  else none

/-- `get_category_text` (main.py line 765-776). -/
def getCategoryText (categories : Json) : String :=
  let texts := (asArr categories).filterMap categoryEntryText
  if !texts.isEmpty then String.intercalate ", " texts else ""

/-- `format_telecom` (main.py line 747-752): the value of the first
entry whose `system` equals the requested one, default `"N/A"`. -/
def formatTelecom (telecoms : Json) (system : String) : String :=
  ((asArr telecoms).findSome? (fun t =>
    match jGet t "system" with
    | some (Json.str s) => if s == system then some (jGetStrD t "value" "N/A") else none
    | _ => none)).getD "N/A"

/-- `format_address` (main.py line 714-744). -/
def formatAddress (addresses : Json) : String :=
  match asArr addresses with
  | [] => "No address on file"
  | addr :: _ =>
    let lines := (asArr (jGetD addr "line" (Json.arr []))).filterMap (fun j =>
      match j with | Json.str s => some s | _ => none)
    let city := jGetStrD addr "city" ""
    let state := jGetStrD addr "state" ""
    let postal := jGetStrD addr "postalCode" ""
    let country := jGetStrD addr "country" ""
    let cityStateZip := (if city != "" then [city] else []) ++
      (if state != "" then [state] else []) ++ (if postal != "" then [postal] else [])
    let parts := lines ++
      (if !cityStateZip.isEmpty then [String.intercalate ", " cityStateZip] else []) ++
      (if country != "" then [country] else [])
    let joined := String.intercalate ", " (parts.filter (fun p => p != ""))
    if joined != "" then joined else "No address on file"

/-- Whether the first list is an initial segment of the second. -/
def strLeads : List Char → List Char → Bool
  | [], _ => true
  | _ :: _, [] => false
  | a :: as, b :: bs => a == b && strLeads as bs

/-- Python's `needle in hay` on strings: `needle` occurs as a
contiguous substring of `hay`. -/
def strHasSub : List Char → List Char → Bool
  | needle, [] => needle.isEmpty
  | needle, b :: bs => strLeads needle (b :: bs) || strHasSub needle bs

/-- The MR/MRN test of `get_identifier`: some coding of
`ident.type.coding` has code `"MR"` or `"MRN"`. -/
def identIsMrn (ident : Json) : Bool :=
  optTruthy (jGet (jGetD ident "type" (Json.obj [])) "coding") &&
    (asArr (jGetD (jGetD ident "type" (Json.obj [])) "coding" (Json.arr []))).any (fun coding =>
      match jGet coding "code" with
      | some (Json.str s) => s == "MR" || s == "MRN"
      | _ => false)

/-- `get_identifier` (main.py line 695-711): the first identifier that
is an MRN or whose `system` contains `"epic"` (case-insensitive), else
the first identifier's value, else the patient resource's own `id`. -/
def getIdentifier (patientData : Json) : String :=
  let identifiers := asArr (jGetD patientData "identifier" (Json.arr []))
  match identifiers.findSome? (fun ident =>
    if identIsMrn ident then some (jGetStrD ident "value" "N/A")
    else if strHasSub "epic".data (pyLower (jGetStrD ident "system" "")).data then
      some (jGetStrD ident "value" "N/A")
    else none) with
  | some v => v
  | none =>
    match identifiers with
    | ident :: _ => jGetStrD ident "value" (jGetStrD patientData "id" "N/A")
    | [] => jGetStrD patientData "id" "N/A"

/-- `get_preferred_language` (main.py line 755-762).  At the first
`communication` entry with a truthy `preferred`, the source returns
`lang.get("text", lang.get("coding", [{}])[0].get("display", "English"))`.
Python evaluates the default argument of the outer `get` eagerly, so
`lang.get("coding", [{}])[0]` is indexed *before* `text` is consulted:
when `language.coding` is a present empty list the index raises
`IndexError` (even when `language.text` is present).  `none` models
that raise propagating out of the normalizer. -/
def getPreferredLanguage (patientData : Json) : Option String :=
  match (asArr (jGetD patientData "communication" (Json.arr []))).find? (fun comm =>
    optTruthy (jGet comm "preferred")) with
  | none => some "English"
  | some comm =>
    let lang := jGetD comm "language" (Json.obj [])
    match jGetD lang "coding" (Json.arr [Json.obj []]) with
    | Json.arr (coding :: _) =>
      some (jGetStrD lang "text" (jGetStrD coding "display" "English"))
    | _ =>
      -- `[][0]` raises IndexError; a non-list here would be ill-typed
      none

/-! ## Normalized records (the four value-object variants of section 3) -/

/-- The record returned by `get_patient` (main.py line 212-223).
`id` is `patient_data.get("id")`, which is Python `None` when absent. -/
structure PatientRecord where
  id : Option Json
  name : String
  gender : String
  birthDate : String
  identifier : String
  address : String
  phone : String
  email : String
  maritalStatus : String
  language : String

/-- One entry of a medication's `dosageDetails` (main.py line 297-303);
`method` is initialized to `""` and never assigned. -/
structure DoseDetail where
  text : String
  timing : String
  route : String
  method : String
  doseQuantity : String

/-- The `dispense_info` dict (main.py line 345-354): each key is present
only when its source field is truthy. -/
structure DispenseInfo where
  refills : Option Json
  quantity : Option String
  supplyDuration : Option String

/-- One normalized medication (main.py line 356-368). -/
structure MedicationRecord where
  id : String
  name : String
  dosage : String
  dosageDetails : List DoseDetail
  status : String
  authoredOn : String
  prescriber : String
  reason : String
  dispenseInfo : DispenseInfo
  intent : String
  category : String

/-- One normalized lab result (main.py line 505-524). -/
structure LabRecord where
  id : String
  name : String
  code : String
  value : String
  rawValue : Json
  unit : String
  valueType : String
  referenceRange : String
  refLow : Option Json
  refHigh : Option Json
  status : String
  date : String
  interpretation : String
  interpretationCode : String
  performer : String
  specimen : String
  notes : List String
  category : String

/-- One entry of a vital's `components` list (main.py line 615-619). -/
structure VitalComponent where
  name : String
  value : Json
  unit : String

/-- One normalized vital sign (main.py line 655-671). -/
structure VitalRecord where
  id : String
  name : String
  code : String
  loincCode : String
  value : String
  rawValue : Json
  unit : String
  components : List VitalComponent
  date : String
  status : String
  interpretation : String
  performer : String
  bodySite : String
  method : String
  category : String

/-! ## Patient normalization (`get_patient`, main.py line 204-223) -/

/-- The normalization step of `get_patient`: FHIR Patient resource →
`PatientRecord`.  The step can raise: `get_preferred_language` throws
`IndexError` on a preferred communication whose `language.coding` is a
present empty list (see `getPreferredLanguage`); `none` models that
raise escaping the record construction at main.py line 222. -/
def parsePatientRecord (patientData : Json) : Option PatientRecord :=
  let name :=
    if optTruthy (jGet patientData "name") then
      match asArr (jGetD patientData "name" (Json.arr [])) with
      | nameObj :: _ =>
        let given := String.intercalate " "
          ((asArr (jGetD nameObj "given" (Json.arr []))).filterMap (fun j =>
            match j with | Json.str s => some s | _ => none))
        let family := jGetStrD nameObj "family" ""
        pyStrip (given ++ " " ++ family)
      | [] => "Unknown"
    else "Unknown"
  match getPreferredLanguage patientData with
  | none => none
  | some language =>
    some
      { id := jGet patientData "id"
        name := name
        gender := pyTitle (jGetStrD patientData "gender" "Unknown")
        birthDate := jGetStrD patientData "birthDate" "Unknown"
        identifier := getIdentifier patientData
        address := formatAddress (jGetD patientData "address" (Json.arr []))
        phone := formatTelecom (jGetD patientData "telecom" (Json.arr [])) "phone"
        email := formatTelecom (jGetD patientData "telecom" (Json.arr [])) "email"
        maritalStatus := jGetStrD (jGetD patientData "maritalStatus" (Json.obj [])) "text" "Unknown"
        language := language }

/-! ## Medication normalization (`get_medications`, main.py line 275-368) -/

/-- Medication display name (main.py line 278-287). -/
def medName (resource : Json) : String :=
  if optTruthy (jGet resource "medicationCodeableConcept") then
    let mcc := jGetD resource "medicationCodeableConcept" (Json.obj [])
    let n := jGetStrD mcc "text" "Unknown Medication"
    if n == "Unknown Medication" then
      match asArr (jGetD mcc "coding" (Json.arr [])) with
      | coding :: _ => jGetStrD coding "display" n
      | [] => n
    else n
  else if optTruthy (jGet resource "medicationReference") then
    jGetStrD (jGetD resource "medicationReference" (Json.obj [])) "display" "Unknown Medication"
  else "Unknown Medication"

/-- The `timing` string of one dosage instruction (main.py line
305-314): the timing code's `text` when `timing.code` is truthy, else a
synthesized `"{freq}x per {period} {period_unit}"` when `timing.repeat`
is truthy, else `""`. -/
def doseTiming (dosage : Json) : String :=
  if optTruthy (jGet dosage "timing") then
    let timing := jGetD dosage "timing" (Json.obj [])
    if optTruthy (jGet timing "code") then
      jGetStrD (jGetD timing "code" (Json.obj [])) "text" ""
    else if optTruthy (jGet timing "repeat") then
      let rep := jGetD timing "repeat" (Json.obj [])
      pyStr (jGetD rep "frequency" (Json.str "")) ++ "x per " ++
        pyStr (jGetD rep "period" (Json.str "")) ++ " " ++
        pyStr (jGetD rep "periodUnit" (Json.str ""))
    else ""
  else ""

/-- The `doseQuantity` string of one dosage instruction (main.py line
319-323): the loop keeps the last `doseAndRate` entry carrying a truthy
`doseQuantity`. -/
def doseQuantityStr (dosage : Json) : String :=
  if optTruthy (jGet dosage "doseAndRate") then
    (asArr (jGetD dosage "doseAndRate" (Json.arr []))).foldl (fun acc dar =>
      if optTruthy (jGet dar "doseQuantity") then
        let dq := jGetD dar "doseQuantity" (Json.obj [])
        pyStr (jGetD dq "value" (Json.str "")) ++ " " ++ pyStr (jGetD dq "unit" (Json.str ""))
      else acc) ""
  else ""

/-- The structured detail built for one dosage instruction
(main.py line 296-325). -/
def mkDoseDetail (dosage : Json) : DoseDetail :=
  { text := jGetStrD dosage "text" ""
    timing := doseTiming dosage
    route := if optTruthy (jGet dosage "route") then
        jGetStrD (jGetD dosage "route" (Json.obj [])) "text" ""
      else ""
    method := ""
    doseQuantity := doseQuantityStr dosage }

/-- The dosage summary (main.py line 290-294): `dosage_text` starts as
`"No dosage information"` and is overwritten by each instruction's
`text` in turn (`dosage.get("text", dosage_text)`), so the last
instruction carrying a `text` key wins. -/
def dosageSummary (instructions : List Json) : String :=
  instructions.foldl (fun acc d => jGetStrD d "text" acc) "No dosage information"

/-- The `dispense_info` dict (main.py line 344-354). -/
def dispenseInfoOf (resource : Json) : DispenseInfo :=
  if optTruthy (jGet resource "dispenseRequest") then
    let dr := jGetD resource "dispenseRequest" (Json.obj [])
    { refills := if optTruthy (jGet dr "numberOfRepeatsAllowed") then
        jGet dr "numberOfRepeatsAllowed" else none
      quantity := if optTruthy (jGet dr "quantity") then
        let q := jGetD dr "quantity" (Json.obj [])
        some (pyStr (jGetD q "value" (Json.str "")) ++ " " ++ pyStr (jGetD q "unit" (Json.str "")))
      else none
      supplyDuration := if optTruthy (jGet dr "expectedSupplyDuration") then
        let esd := jGetD dr "expectedSupplyDuration" (Json.obj [])
        some (pyStr (jGetD esd "value" (Json.str "")) ++ " " ++
          pyStr (jGetD esd "unit" (Json.str "")))
      else none }
  else ⟨none, none, none⟩

/-- The reason string (main.py line 338-342): comma-joined truthy
`text`s of the `reasonCode` entries. -/
def medReason (resource : Json) : String :=
  if optTruthy (jGet resource "reasonCode") then
    String.intercalate ", " ((asArr (jGetD resource "reasonCode" (Json.arr []))).filterMap
      (fun rc => match jGet rc "text" with
        | some (Json.str s) => if s != "" then some s else none
        | _ => none))
  else ""

/-- One MedicationRequest resource → `MedicationRecord`
(main.py line 275-368). -/
def normalizeMedication (resource : Json) : MedicationRecord :=
  let instructions :=
    if optTruthy (jGet resource "dosageInstruction") then
      asArr (jGetD resource "dosageInstruction" (Json.arr []))
    else []
  { id := jGetStrD resource "id" ""
    name := medName resource
    dosage := dosageSummary instructions
    dosageDetails := instructions.map mkDoseDetail
    status := pyTitle (jGetStrD resource "status" "unknown")
    authoredOn := jGetStrD resource "authoredOn" "Unknown date"
    prescriber := if optTruthy (jGet resource "requester") then
        jGetStrD (jGetD resource "requester" (Json.obj [])) "display" "Unknown"
      else "Unknown"
    reason := medReason resource
    dispenseInfo := dispenseInfoOf resource
    intent := pyTitle (jGetStrD resource "intent" "")
    category := getCategoryText (jGetD resource "category" (Json.arr [])) }

/-! ## Lab normalization (`get_labs`, main.py line 426-524) -/

/-- Lab test name and code (main.py line 429-436). -/
def labNameCode (resource : Json) : String × String :=
  let testName := jGetStrD (jGetD resource "code" (Json.obj [])) "text" "Unknown Test"
  if optTruthy (jGet (jGetD resource "code" (Json.obj [])) "coding") then
    match asArr (jGetD (jGetD resource "code" (Json.obj [])) "coding" (Json.arr [])) with
    | coding :: _ =>
      (if testName == "" || testName == "Unknown Test" then
         jGetStrD coding "display" testName
       else testName,
       jGetStrD coding "code" "")
    | [] => (testName, "")
  else (testName, "")

/-- Lab value extraction (main.py line 438-455): raw value, unit and
type tag for the quantity / string / coded / boolean union. -/
def labValue (resource : Json) : Json × String × String :=
  if optTruthy (jGet resource "valueQuantity") then
    let vq := jGetD resource "valueQuantity" (Json.obj [])
    (jGetD vq "value" (Json.str "N/A"), jGetStrD vq "unit" "", "quantity")
  else if optTruthy (jGet resource "valueString") then
    (jGetD resource "valueString" Json.null, "", "string")
  else if optTruthy (jGet resource "valueCodeableConcept") then
    (Json.str (jGetStrD (jGetD resource "valueCodeableConcept" (Json.obj [])) "text" "N/A"),
     "", "coded")
  else
    match jGet resource "valueBoolean" with
    | some Json.null => (Json.str "N/A", "", "")
    | some v => (Json.str (if pyTruthy v then "Yes" else "No"), "", "boolean")
    | none => (Json.str "N/A", "", "")

/-- Reference range extraction (main.py line 457-474): the display
string plus the raw low/high values (`None` outside the branch). -/
def labRefRange (resource : Json) : String × Option Json × Option Json :=
  if optTruthy (jGet resource "referenceRange") then
    match asArr (jGetD resource "referenceRange" (Json.arr [])) with
    | rangeObj :: _ =>
      let low := jGetD (jGetD rangeObj "low" (Json.obj [])) "value" (Json.str "")
      let high := jGetD (jGetD rangeObj "high" (Json.obj [])) "value" (Json.str "")
      let synthesized :=
        if pyTruthy low && pyTruthy high then pyStr low ++ " - " ++ pyStr high
        else if pyTruthy low then ">= " ++ pyStr low
        else if pyTruthy high then "<= " ++ pyStr high
        else "N/A"
      (if optTruthy (jGet rangeObj "text") then jGetStrD rangeObj "text" "" else synthesized,
       some low, some high)
    | [] => ("N/A", none, none)
  else ("N/A", none, none)

/-- Lab interpretation (main.py line 480-488): starts at `"Normal"`,
replaced by the first entry's `text` (default `""`), then — only when
that text is falsy and the entry has a truthy `coding` — by the first
coding's `display` (default `"Normal"`); the code is taken from the
same coding. -/
def labInterp (resource : Json) : String × String :=
  match jGet resource "interpretation" with
  | some (Json.arr (entry :: _)) =>
    let t := jGetStrD entry "text" ""
    if t == "" then
      match jGet entry "coding" with
      | some (Json.arr (coding :: _)) =>
        (jGetStrD coding "display" "Normal", jGetStrD coding "code" "")
      | _ => (t, "")
    else (t, "")
  | _ => ("Normal", "")

/-- One laboratory Observation resource → `LabRecord`
(main.py line 426-524). -/
def normalizeLab (resource : Json) : LabRecord :=
  let nameCode := labNameCode resource
  let v := labValue resource
  let rr := labRefRange resource
  let interp := labInterp resource
  { id := jGetStrD resource "id" ""
    name := nameCode.1
    code := nameCode.2
    value := if v.2.1 != "" then pyStrip (pyStr v.1 ++ " " ++ v.2.1) else pyStr v.1
    rawValue := v.1
    unit := v.2.1
    valueType := v.2.2
    referenceRange := rr.1
    refLow := rr.2.1
    refHigh := rr.2.2
    status := pyTitle (jGetStrD resource "status" "unknown")
    date := jGetStrD resource "effectiveDateTime" "Unknown date"
    interpretation := interp.1
    interpretationCode := interp.2
    performer := if optTruthy (jGet resource "performer") then
        match asArr (jGetD resource "performer" (Json.arr [])) with
        | p :: _ => jGetStrD p "display" ""
        | [] => ""
      else ""
    specimen := if optTruthy (jGet resource "specimen") then
        jGetStrD (jGetD resource "specimen" (Json.obj [])) "display" ""
      else ""
    notes := if optTruthy (jGet resource "note") then
        (asArr (jGetD resource "note" (Json.arr []))).filterMap (fun n =>
          match jGet n "text" with
          | some (Json.str s) => if s != "" then some s else none
          | _ => none)
      else []
    category := getCategoryText (jGetD resource "category" (Json.arr [])) }

/-! ## Vital-sign normalization (`get_vitals`, main.py line 582-671) -/

/-- Vital name, code and LOINC code (main.py line 585-595): a fold over
the codings, where a LOINC coding sets the LOINC code (and possibly the
display name) and every coding overwrites `vital_code` (keeping the
previous value as the `get` default). -/
def vitalNameCodes (resource : Json) : String × String × String :=
  let vitalName := jGetStrD (jGetD resource "code" (Json.obj [])) "text" "Unknown Vital"
  if optTruthy (jGet (jGetD resource "code" (Json.obj [])) "coding") then
    (asArr (jGetD (jGetD resource "code" (Json.obj [])) "coding" (Json.arr []))).foldl
      (fun acc coding =>
        let isLoinc := match jGet coding "system" with
          | some (Json.str s) => s == "http://loinc.org"
          | _ => false
        let lc := if isLoinc then jGetStrD coding "code" "" else acc.2.2
        let vn := if isLoinc && (acc.1 == "" || acc.1 == "Unknown Vital") then
            jGetStrD coding "display" acc.1
          else acc.1
        (vn, jGetStrD coding "code" acc.2.1, lc))
      (vitalName, "", "")
  else (vitalName, "", "")

/-- One component of a multi-component vital (main.py line 608-619). -/
def mkVitalComponent (comp : Json) : VitalComponent :=
  let compName := jGetStrD (jGetD comp "code" (Json.obj [])) "text" ""
  { name := if compName == "" && optTruthy (jGet (jGetD comp "code" (Json.obj [])) "coding") then
      match asArr (jGetD (jGetD comp "code" (Json.obj [])) "coding" (Json.arr [])) with
      | coding :: _ => jGetStrD coding "display" ""
      | [] => compName
    else compName
    value := jGetD (jGetD comp "valueQuantity" (Json.obj [])) "value" (Json.str "")
    unit := jGetStrD (jGetD comp "valueQuantity" (Json.obj [])) "unit" "" }

/-- Vital value extraction (main.py line 597-626): a plain quantity, or
the multi-component form whose display value joins the truthy component
values with `/` and whose unit is the first component's unit. -/
def vitalValue (resource : Json) : Json × String × List VitalComponent :=
  if optTruthy (jGet resource "valueQuantity") then
    let vq := jGetD resource "valueQuantity" (Json.obj [])
    (jGetD vq "value" (Json.str "N/A"), jGetStrD vq "unit" "", [])
  else if optTruthy (jGet resource "component") then
    let components := (asArr (jGetD resource "component" (Json.arr []))).map mkVitalComponent
    let compValues := components.filterMap (fun c =>
      if pyTruthy c.value then some (pyStr c.value) else none)
    (Json.str (if !compValues.isEmpty then String.intercalate "/" compValues else "N/A"),
     match components with | c :: _ => c.unit | [] => "",
     components)
  else (Json.str "N/A", "", [])

/-- Vital interpretation (main.py line 632-638): like the lab variant
but with `""` defaults throughout. -/
def vitalInterp (resource : Json) : String :=
  match jGet resource "interpretation" with
  | some (Json.arr (entry :: _)) =>
    let t := jGetStrD entry "text" ""
    if t == "" then
      match jGet entry "coding" with
      | some (Json.arr (coding :: _)) => jGetStrD coding "display" ""
      | _ => t
    else t
  | _ => ""

/-- One vital-signs Observation resource → `VitalRecord`
(main.py line 582-671). -/
def normalizeVital (resource : Json) : VitalRecord :=
  let names := vitalNameCodes resource
  let v := vitalValue resource
  { id := jGetStrD resource "id" ""
    name := names.1
    code := names.2.1
    loincCode := names.2.2
    value := if v.2.1 != "" then pyStrip (pyStr v.1 ++ " " ++ v.2.1) else pyStr v.1
    rawValue := v.1
    unit := v.2.1
    components := v.2.2
    date := jGetStrD resource "effectiveDateTime" "Unknown date"
    status := pyTitle (jGetStrD resource "status" "unknown")
    interpretation := vitalInterp resource
    performer := if optTruthy (jGet resource "performer") then
        match asArr (jGetD resource "performer" (Json.arr [])) with
        | p :: _ => jGetStrD p "display" ""
        | [] => ""
      else ""
    bodySite := if optTruthy (jGet resource "bodySite") then
        jGetStrD (jGetD resource "bodySite" (Json.obj [])) "text" ""
      else ""
    method := if optTruthy (jGet resource "method") then
        jGetStrD (jGetD resource "method" (Json.obj [])) "text" ""
      else ""
    category := getCategoryText (jGetD resource "category" (Json.arr [])) }

/-! ## The `/api/...` endpoints (main.py line 176-691)

Each endpoint first checks the session guard and only then performs its
single outbound GET; the GET's response is passed in as `net` and the
returned `Nat` counts the outbound network calls actually made.
`HTTPException` raises are modelled with `Except.error`. -/

/-- A raised `HTTPException(status_code, detail)`. -/
structure HttpError where
  status : Nat
  detail : String

/-- The resources of a FHIR search bundle: `entry.get("resource", {})`
for each entry of `bundle.get("entry", [])`. -/
def bundleResources (bundle : Json) : List Json :=
  (asArr (jGetD bundle "entry" (Json.arr []))).map (fun entry =>
    jGetD entry "resource" (Json.obj []))

/-- The pagination denominator shared by the three list endpoints
(`(total + page_size - 1) // page_size if total else 1`); Python's `//`
is floor division, i.e. `Int.fdiv`. -/
def totalPagesOf (total pageSize : Int) : Int :=
  if total != 0 then Int.fdiv (total + pageSize - 1) pageSize else 1

/-- `get_patient` (main.py line 176-229). -/
def get_patient (net : HttpResponse) (store : SessionStore) (sessionId : String) :
    Except HttpError PatientRecord × Nat :=
  if sessionAuthed store sessionId then
    if net.status == 401 then
      (Except.error ⟨401, "Access token expired or invalid"⟩, 1)
    else if net.status != 200 then
      (Except.error ⟨net.status, "Failed to fetch patient data: " ++ net.text⟩, 1)
    else
      match parsePatientRecord net.json with
      | some record => (Except.ok record, 1)
      | none =>
        -- the IndexError is caught by the handler at main.py line
        -- 227-229 and re-raised as HTTPException(500, ...)
        (Except.error ⟨500, "Error fetching patient: list index out of range"⟩, 1)
  else
    (Except.error ⟨401, "Invalid or expired session"⟩, 0)

/-- The JSON body returned by `get_medications` (main.py line 265-269,
370-376, 380): on the degraded paths the `total_pages` key is absent
and `error` present. -/
structure MedicationsResponse where
  medications : List MedicationRecord
  total : Int
  page : Int
  page_size : Int
  total_pages : Option Int
  error : Option String

/-- `get_medications` (main.py line 232-380). -/
def get_medications (net : HttpResponse) (store : SessionStore) (sessionId : String)
    (page pageSize : Int) : Except HttpError MedicationsResponse × Nat :=
  if sessionAuthed store sessionId then
    let offset := (page - 1) * pageSize
    let _ := offset  -- sent as the `_offset` query parameter
    if net.status == 401 then
      (Except.ok ⟨[], 0, page, pageSize, none, some "Session expired"⟩, 1)
    else if net.status != 200 then
      (Except.ok ⟨[], 0, page, pageSize, none,
        some ("Failed to fetch: " ++ toString net.status)⟩, 1)
    else
      let bundle := net.json
      let total := jGetIntD bundle "total" 0
      (Except.ok ⟨(bundleResources bundle).map normalizeMedication, total, page, pageSize,
        some (totalPagesOf total pageSize), none⟩, 1)
  else
    (Except.error ⟨401, "Invalid or expired session"⟩, 0)

/-- The JSON body returned by `get_labs` (main.py line 416-420,
526-532, 536). -/
structure LabsResponse where
  labs : List LabRecord
  total : Int
  page : Int
  page_size : Int
  total_pages : Option Int
  error : Option String

/-- `get_labs` (main.py line 383-536). -/
def get_labs (net : HttpResponse) (store : SessionStore) (sessionId : String)
    (page pageSize : Int) : Except HttpError LabsResponse × Nat :=
  if sessionAuthed store sessionId then
    let offset := (page - 1) * pageSize
    let _ := offset
    if net.status == 401 then
      (Except.ok ⟨[], 0, page, pageSize, none, some "Session expired"⟩, 1)
    else if net.status != 200 then
      (Except.ok ⟨[], 0, page, pageSize, none,
        some ("Failed to fetch: " ++ toString net.status)⟩, 1)
    else
      let bundle := net.json
      let total := jGetIntD bundle "total" 0
      (Except.ok ⟨(bundleResources bundle).map normalizeLab, total, page, pageSize,
        some (totalPagesOf total pageSize), none⟩, 1)
  else
    (Except.error ⟨401, "Invalid or expired session"⟩, 0)

/-- The JSON body returned by `get_vitals` (main.py line 572-576,
673-679, 683). -/
structure VitalsResponse where
  vitals : List VitalRecord
  total : Int
  page : Int
  page_size : Int
  total_pages : Option Int
  error : Option String

/-- `get_vitals` (main.py line 539-683). -/
def get_vitals (net : HttpResponse) (store : SessionStore) (sessionId : String)
    (page pageSize : Int) : Except HttpError VitalsResponse × Nat :=
  if sessionAuthed store sessionId then
    let offset := (page - 1) * pageSize
    let _ := offset
    if net.status == 401 then
      (Except.ok ⟨[], 0, page, pageSize, none, some "Session expired"⟩, 1)
    else if net.status != 200 then
      (Except.ok ⟨[], 0, page, pageSize, none,
        some ("Failed to fetch: " ++ toString net.status)⟩, 1)
    else
      let bundle := net.json
      let total := jGetIntD bundle "total" 0
      (Except.ok ⟨(bundleResources bundle).map normalizeVital, total, page, pageSize,
        some (totalPagesOf total pageSize), none⟩, 1)
  else
    (Except.error ⟨401, "Invalid or expired session"⟩, 0)

/-! ## Projections and spec-side definitions used by the claims -/

/-- The `total_pages` key of a medications response (absent on error
bodies and on a raised `HTTPException`). -/
def medsTotalPages : Except HttpError MedicationsResponse → Option Int
  | Except.ok r => r.total_pages
  | Except.error _ => none

/-- The `total_pages` key of a labs response. -/
def labsTotalPages : Except HttpError LabsResponse → Option Int
  | Except.ok r => r.total_pages
  | Except.error _ => none

/-- The `total_pages` key of a vitals response. -/
def vitalsTotalPages : Except HttpError VitalsResponse → Option Int
  | Except.ok r => r.total_pages
  | Except.error _ => none

/-- Spec-side description of the dosage summary the source actually
computes: the `text` of the *last* instruction that carries a `text`
key, else the default. -/
def lastTextD (dflt : String) (instructions : List Json) : String :=
  ((instructions.filterMap (fun d =>
      match jGet d "text" with
      | some (Json.str s) => some s
      | _ => none)).getLast?).getD dflt

/-! ## Concrete fixtures for the claim theorems -/

/-- A pending session store holding a code verifier, for the token
exchange claims. -/
def pendingStore : SessionStore :=
  [("st", Json.obj [("status", Json.str "pending"), ("code_verifier", Json.str "ver")])]

/-- A store whose session is authenticated (the shape `callback` writes
at main.py line 133-140: no `code_verifier` key). -/
def authedStore : SessionStore :=
  [("st", Json.obj [("status", Json.str "authenticated"),
    ("access_token", Json.str "tok"), ("patient_id", Json.str "p1"),
    ("token_type", Json.str "Bearer"), ("expires_in", Json.null), ("scope", Json.null)])]

/-- A successful token-endpoint response, used to show a replayed
callback never even consults it. -/
def replayTokenResp : HttpResponse :=
  ⟨200, "", Json.obj [("access_token", Json.str "t2"), ("patient", Json.str "p2")]⟩

/-- The dosage instructions of the C5 counterexample: first text `"A"`,
second text `"B"` with a synthesizable timing, third with a truthy
`timing.code` that lacks `text` plus a present `timing.repeat`. -/
def dosageInstrsC5 : List Json :=
  [Json.obj [("text", Json.str "A")],
   Json.obj [("text", Json.str "B"),
     ("timing", Json.obj [("repeat", Json.obj
       [("frequency", Json.num 2), ("period", Json.num 1), ("periodUnit", Json.str "d")])])],
   Json.obj [("timing", Json.obj
     [("code", Json.obj [("coding", Json.arr [])]),
      ("repeat", Json.obj
        [("frequency", Json.num 3), ("period", Json.num 1), ("periodUnit", Json.str "d")])])]]

/-- A MedicationRequest with the above dosage instructions. -/
def medResourceC5 : Json := Json.obj [("dosageInstruction", Json.arr dosageInstrsC5)]

/-- The blood-pressure Observation of the C6 scenario. -/
def bpObservation : Json := Json.obj [("component", Json.arr
  [Json.obj [("code", Json.obj [("text", Json.str "Systolic")]),
     ("valueQuantity", Json.obj [("value", Json.num 120), ("unit", Json.str "mmHg")])],
   Json.obj [("code", Json.obj [("text", Json.str "Diastolic")]),
     ("valueQuantity", Json.obj [("value", Json.num 80), ("unit", Json.str "mmHg")])]])]

/-- A lab Observation whose single interpretation entry carries neither
`text` nor any `coding`. -/
def labBareInterp : Json := Json.obj [("interpretation", Json.arr [Json.obj []])]

/-- A lab Observation whose interpretation entry carries a `text`. -/
def labTextInterp : Json :=
  Json.obj [("interpretation", Json.arr [Json.obj [("text", Json.str "High")]])]

/-- A two-session store for the logout claim. -/
def logoutStore : SessionStore :=
  [("a", Json.obj [("status", Json.str "pending")]),
   ("b", Json.obj [("status", Json.str "authenticated")])]

/-- A bundle response with seven results, for the pagination claim. -/
def bundle7Resp : HttpResponse := ⟨200, "", Json.obj [("total", Json.num 7)]⟩

/-- A well-typed, partially populated Patient resource on which the
source raises: the preferred communication's `language.coding` is a
present empty list, so `lang.get("coding", [{}])[0]` throws
`IndexError` — even though `language.text` is present, because Python
evaluates the outer `get`'s default argument eagerly. -/
def langBugPatient : Json :=
  Json.obj [("communication", Json.arr
    [Json.obj [("preferred", Json.bool true),
      ("language", Json.obj [("text", Json.str "English"),
        ("coding", Json.arr [])])]])]

/-! # Theorems -/

/-! ## Base64 and SHA-256 facts -/

theorem b64Char_mem (n : Nat) : b64Char n ∈ b64UrlAlphabet := List.get_mem _ _ _

theorem b64EncNoPad_length : ∀ bs : List Nat, (b64EncNoPad bs).length = (4 * bs.length + 2) / 3 := by
  intro bs
  induction bs using b64EncNoPad.induct
  all_goals simp [b64EncNoPad, *]
  all_goals omega

theorem b64EncNoPad_mem : ∀ bs : List Nat, ∀ c ∈ b64EncNoPad bs, c ∈ b64UrlAlphabet := by
  intro bs
  induction bs using b64EncNoPad.induct <;> intro c hc <;> simp [b64EncNoPad] at hc
  case case2 a => rcases hc with rfl | rfl <;> exact b64Char_mem _
  case case3 a b => rcases hc with rfl | rfl | rfl <;> exact b64Char_mem _
  case case4 a b d rest ih =>
    rcases hc with rfl | rfl | rfl | rfl | hmem
    · exact b64Char_mem _
    · exact b64Char_mem _
    · exact b64Char_mem _
    · exact b64Char_mem _
    · exact ih c hmem

theorem sha256_length (msg : List Nat) : (sha256 msg).length = 32 := by
  simp only [sha256]
  simp [wordBytes]

/-- C8: every call of the PKCE generator returns a verifier of at least
43 and at most 128 URL-safe characters (in fact exactly 86, the
`=`-stripped base64 of 64 random bytes, unchanged by the `[:128]`
truncation), and a challenge equal to the URL-safe, unpadded base64
encoding of the SHA-256 digest of that verifier (43 characters). -/
theorem pkce_generator_spec (randomBytes : List Nat) (hlen : randomBytes.length = 64) :
    43 ≤ (generate_code_verifier randomBytes).length
    ∧ (generate_code_verifier randomBytes).length ≤ 128
    ∧ (∀ c ∈ generate_code_verifier randomBytes, c ∈ b64UrlAlphabet)
    ∧ generate_code_challenge (generate_code_verifier randomBytes)
        = b64EncNoPad (sha256 (utf8Bytes (generate_code_verifier randomBytes)))
    ∧ (generate_code_challenge (generate_code_verifier randomBytes)).length = 43 := by
  have hv : (generate_code_verifier randomBytes).length = 86 := by
    unfold generate_code_verifier
    rw [List.length_take, b64EncNoPad_length, hlen]
    decide
  refine ⟨by omega, by omega, ?_, rfl, ?_⟩
  · intro c hc
    exact b64EncNoPad_mem _ c (List.mem_of_mem_take hc)
  · unfold generate_code_challenge
    rw [b64EncNoPad_length, sha256_length]

/-- Witness for C8 at an explicit 64-byte random string. -/
theorem pkce_generator_spec_witness :
    43 ≤ (generate_code_verifier (List.replicate 64 0)).length
    ∧ (generate_code_verifier (List.replicate 64 0)).length ≤ 128
    ∧ generate_code_challenge (generate_code_verifier (List.replicate 64 0))
        = b64EncNoPad (sha256 (utf8Bytes (generate_code_verifier (List.replicate 64 0))))
    ∧ (generate_code_challenge (generate_code_verifier (List.replicate 64 0))).length = 43 := by
  have h := pkce_generator_spec (List.replicate 64 0) (by simp)
  exact ⟨h.1, h.2.1, h.2.2.2.1, h.2.2.2.2⟩

/-! ## Session store facts -/

theorem lookup_filterOut_self (store : SessionStore) (sid : String) :
    (store.filter (fun p => p.1 != sid)).lookup sid = none := by
  induction store with
  | nil => rfl
  | cons p t ih =>
    by_cases h : p.1 = sid
    · simp [List.filter_cons, h, ih]
    · have hne : (sid == p.1) = false := beq_eq_false_iff_ne.mpr (Ne.symm h)
      simp [List.filter_cons, h, List.lookup, hne, ih]

theorem lookup_filterOut_other (store : SessionStore) (sid k : String) (hk : k ≠ sid) :
    (store.filter (fun p => p.1 != sid)).lookup k = store.lookup k := by
  induction store with
  | nil => rfl
  | cons p t ih =>
    by_cases h : p.1 = sid
    · have hne : (k == sid) = false := beq_eq_false_iff_ne.mpr hk
      simp [List.filter_cons, h, List.lookup, hne, ih]
    · by_cases hkp : k = p.1
      · simp [List.filter_cons, h, List.lookup, hkp]
      · have hne : (k == p.1) = false := beq_eq_false_iff_ne.mpr hkp
        simp [List.filter_cons, h, List.lookup, hne, ih]

/-- C10: `logout` always returns the same success message, removes the
given session (a later lookup misses), leaves every other session's
binding unchanged, and is idempotent: a second `logout` with the same
id returns the same store and message. -/
theorem logout_removes_and_idempotent (store : SessionStore) (sessionId : String) :
    (logout store sessionId).2 = "Logged out successfully"
    ∧ (logout store sessionId).1.lookup sessionId = none
    ∧ (∀ k, k ≠ sessionId → (logout store sessionId).1.lookup k = store.lookup k)
    ∧ logout (logout store sessionId).1 sessionId = logout store sessionId := by
  by_cases h : (store.lookup sessionId).isSome
  · refine ⟨rfl, ?_, ?_, ?_⟩
    · simp only [logout, h, if_true]
      exact lookup_filterOut_self store sessionId
    · intro k hk
      simp only [logout, h, if_true]
      exact lookup_filterOut_other store sessionId k hk
    · simp only [logout, h, if_true]
      rw [lookup_filterOut_self store sessionId]
      simp
  · have hn : store.lookup sessionId = none := by
      cases hl : store.lookup sessionId with
      | none => rfl
      | some v => rw [hl] at h; simp at h
    refine ⟨rfl, ?_, ?_, ?_⟩
    · simp only [logout, hn]
      simp [hn]
    · intro k hk
      simp [logout, hn]
    · simp [logout, hn]

/-- Witness for C10 on a concrete two-session store. -/
theorem logout_removes_and_idempotent_witness :
    (logout logoutStore "a").2 = "Logged out successfully"
    ∧ (logout logoutStore "a").1.lookup "a" = none
    ∧ (logout logoutStore "a").1.lookup "b" = logoutStore.lookup "b"
    ∧ logout (logout logoutStore "a").1 "a" = logout logoutStore "a" := by
  have h := logout_removes_and_idempotent logoutStore "a"
  exact ⟨h.1, h.2.1, h.2.2.1 "b" (by decide), h.2.2.2⟩

/-! ## Resource-fetch guard (C3) -/

/-- C3: for every session that is not authenticated — absent from the
store, falsy, or with any status other than `"authenticated"` — all
four resource fetch operations fail with the 401 "Invalid or expired
session" error and make zero outbound network calls, whatever response
the network would have given. -/
theorem unauthenticated_fetch_rejected (net : HttpResponse) (store : SessionStore)
    (sessionId : String) (page pageSize : Int)
    (h : sessionAuthed store sessionId = false) :
    get_patient net store sessionId
      = (Except.error ⟨401, "Invalid or expired session"⟩, 0)
    ∧ get_medications net store sessionId page pageSize
      = (Except.error ⟨401, "Invalid or expired session"⟩, 0)
    ∧ get_labs net store sessionId page pageSize
      = (Except.error ⟨401, "Invalid or expired session"⟩, 0)
    ∧ get_vitals net store sessionId page pageSize
      = (Except.error ⟨401, "Invalid or expired session"⟩, 0) := by
  unfold get_patient get_medications get_labs get_vitals
  simp [h]

/-- Witness for C3: a concrete pending session is rejected with zero
network calls even though the network would have answered 200. -/
theorem unauthenticated_fetch_rejected_witness :
    get_patient ⟨200, "", Json.obj []⟩ pendingStore "st"
      = (Except.error ⟨401, "Invalid or expired session"⟩, 0)
    ∧ get_medications ⟨200, "", Json.obj []⟩ pendingStore "st" 1 10
      = (Except.error ⟨401, "Invalid or expired session"⟩, 0)
    ∧ get_labs ⟨200, "", Json.obj []⟩ pendingStore "st" 1 10
      = (Except.error ⟨401, "Invalid or expired session"⟩, 0)
    ∧ get_vitals ⟨200, "", Json.obj []⟩ pendingStore "st" 1 10
      = (Except.error ⟨401, "Invalid or expired session"⟩, 0) :=
  unauthenticated_fetch_rejected ⟨200, "", Json.obj []⟩ pendingStore "st" 1 10 rfl

/-! ## Token-exchange failure (C2) -/

/-- C2 counterexample: with a pending session `"st"` (verifier `"ver"`)
and a 400 token response whose body is `"bad_body"`, the callback's
failure outcome is the redirect `"/?error=token_error&details=400"` —
it carries the status but not the response body (which is only
printed), refuting the claim that the failure carries status *and*
body; the store is returned unchanged. -/
theorem token_error_counterexample :
    callback ⟨400, "bad_body", Json.obj []⟩ pendingStore (some "c") (some "st") none
      = (pendingStore, "/?error=token_error&details=400", 1)
    ∧ strHasSub "bad_body".data "/?error=token_error&details=400".data = false :=
  ⟨rfl, by decide⟩

/-- C2 (amended): when the state names a stored session whose
`code_verifier` is truthy (a pending session) and the token endpoint
answers non-200, `callback` fails with the token-error redirect
carrying that status (the body is only logged), after exactly the one
token-exchange call, and the session store is returned unchanged — the
session stays pending with its verifier. -/
theorem token_error_leaves_session_pending (tokenResp : HttpResponse) (store : SessionStore)
    (state code : String) (sess : Json)
    (hstate : store.lookup state = some sess)
    (_hpending : jGet sess "status" = some (Json.str "pending"))
    (hver : optTruthy (jGet sess "code_verifier") = true)
    (hcode : code ≠ "") (hst : state ≠ "")
    (hstatus : tokenResp.status ≠ 200) :
    callback tokenResp store (some code) (some state) none
      = (store, "/?error=token_error&details=" ++ toString tokenResp.status, 1) := by
  unfold callback
  simp [optStrTruthy, hcode, hst, hstate, hver, hstatus]

/-- Witness for C2 on the concrete pending store and a 400 response. -/
theorem token_error_leaves_session_pending_witness :
    callback ⟨400, "bad", Json.obj []⟩ pendingStore (some "c") (some "st") none
      = (pendingStore, "/?error=token_error&details=" ++ toString (400 : Nat), 1) :=
  token_error_leaves_session_pending ⟨400, "bad", Json.obj []⟩ pendingStore "st" "c" _
    rfl rfl rfl (by decide) (by decide) (by decide)

/-! ## Replayed callback on an authenticated session (C9) -/

/-- C9 counterexample: re-invoking `callback` with the state of an
already-authenticated session does *not* perform the token exchange
again and does *not* overwrite the session: the authenticated record
has no `code_verifier`, so the call fails with the `missing_verifier`
redirect, zero token-endpoint calls, and the store unchanged — even
though the token endpoint stood ready with a fresh 200 response. -/
theorem replay_callback_counterexample :
    callback replayTokenResp authedStore (some "newcode") (some "st") none
      = (authedStore, "/?error=missing_verifier", 0)
    ∧ (callback replayTokenResp authedStore (some "newcode") (some "st") none).2.2 ≠ 1 :=
  ⟨rfl, by decide⟩

/-- C9 (amended): re-invoking `callback` with the state token of a
session whose record lacks a truthy `code_verifier` — which is exactly
the shape `mark_authenticated` (the session overwrite at main.py line
133-140) leaves behind — fails with the `missing_verifier` redirect
before any token exchange, for every token response, leaving the store
unchanged; the overwrite itself performs no already-authenticated
check, but it is unreachable on replay. -/
theorem replay_callback_blocked (tokenResp : HttpResponse) (store : SessionStore)
    (state code : String) (sess : Json)
    (hstate : store.lookup state = some sess)
    (hver : optTruthy (jGet sess "code_verifier") = false)
    (hcode : code ≠ "") (hst : state ≠ "") :
    callback tokenResp store (some code) (some state) none
      = (store, "/?error=missing_verifier", 0) := by
  unfold callback
  simp [optStrTruthy, hcode, hst, hstate, hver]

/-- Witness for C9 on the concrete authenticated store. -/
theorem replay_callback_blocked_witness :
    callback replayTokenResp authedStore (some "code2") (some "st") none
      = (authedStore, "/?error=missing_verifier", 0) :=
  replay_callback_blocked replayTokenResp authedStore "st" "code2" _
    rfl rfl (by decide) (by decide)

/-! ## Pagination metadata (C4) -/

theorem fdiv_shift_eq_ceil (total pageSize : Int) (_ht : 0 < total) (hps : 0 < pageSize) :
    Int.fdiv (total + pageSize - 1) pageSize = ⌈(total : ℚ) / (pageSize : ℚ)⌉ := by
  rw [Int.fdiv_eq_ediv _ (le_of_lt hps)]
  have key := Int.ediv_add_emod (total + pageSize - 1) pageSize
  have h1 : 0 ≤ (total + pageSize - 1) % pageSize := Int.emod_nonneg _ (by omega)
  have h2 : (total + pageSize - 1) % pageSize < pageSize := Int.emod_lt_of_pos _ hps
  have h2' : (total + pageSize - 1) % pageSize ≤ pageSize - 1 := by omega
  set z := (total + pageSize - 1) / pageSize with hz
  have hz1 : pageSize * z ≤ total + pageSize - 1 := by linarith
  have hz2 : total ≤ pageSize * z := by linarith
  rw [eq_comm, Int.ceil_eq_iff]
  have hpsq : (0 : ℚ) < (pageSize : ℚ) := by exact_mod_cast hps
  constructor
  · rw [lt_div_iff₀ hpsq]
    have : ((pageSize : ℚ)) * ((z : ℚ)) ≤ ((total : ℚ)) + (pageSize : ℚ) - 1 := by
      exact_mod_cast hz1
    nlinarith
  · rw [div_le_iff₀ hpsq]
    have : ((total : ℚ)) ≤ ((pageSize : ℚ)) * ((z : ℚ)) := by exact_mod_cast hz2
    nlinarith

theorem totalPagesOf_spec (total pageSize : Int) (htnn : 0 ≤ total) (hps : 0 < pageSize) :
    totalPagesOf total pageSize
      = if 0 < total then ⌈(total : ℚ) / (pageSize : ℚ)⌉ else 1 := by
  by_cases h : 0 < total
  · rw [if_pos h]
    unfold totalPagesOf
    rw [if_pos (by simpa using (by omega : total ≠ 0))]
    exact fdiv_shift_eq_ceil total pageSize h hps
  · have h0 : total = 0 := by omega
    subst h0
    simp [totalPagesOf]

/-- C4: for every successful (status-200) list-endpoint response with
`1 ≤ page_size ≤ 50` and bundle `total ≥ 0`, the returned
`total_pages` equals `⌈total / page_size⌉` when `total > 0` and `1`
when `total = 0`, for medications, labs and vitals alike. -/
theorem pagination_total_pages (net : HttpResponse) (store : SessionStore)
    (sessionId : String) (page pageSize total : Int)
    (hauth : sessionAuthed store sessionId = true)
    (h200 : net.status = 200)
    (htotal : jGet net.json "total" = some (Json.num total))
    (htnn : 0 ≤ total) (hps1 : 1 ≤ pageSize) (hps50 : pageSize ≤ 50) :
    medsTotalPages (get_medications net store sessionId page pageSize).1
      = some (if 0 < total then ⌈(total : ℚ) / (pageSize : ℚ)⌉ else 1)
    ∧ labsTotalPages (get_labs net store sessionId page pageSize).1
      = some (if 0 < total then ⌈(total : ℚ) / (pageSize : ℚ)⌉ else 1)
    ∧ vitalsTotalPages (get_vitals net store sessionId page pageSize).1
      = some (if 0 < total then ⌈(total : ℚ) / (pageSize : ℚ)⌉ else 1) := by
  have hspec := totalPagesOf_spec total pageSize htnn (by omega)
  unfold get_medications get_labs get_vitals
  simp [hauth, h200, jGetIntD, htotal, medsTotalPages, labsTotalPages, vitalsTotalPages, hspec]

/-- Witness for C4: an authenticated session, a bundle with `total = 7`
and `page_size = 3`. -/
theorem pagination_total_pages_witness :
    medsTotalPages (get_medications bundle7Resp authedStore "st" 1 3).1
      = some (if 0 < (7 : Int) then ⌈((7 : Int) : ℚ) / ((3 : Int) : ℚ)⌉ else 1)
    ∧ labsTotalPages (get_labs bundle7Resp authedStore "st" 1 3).1
      = some (if 0 < (7 : Int) then ⌈((7 : Int) : ℚ) / ((3 : Int) : ℚ)⌉ else 1)
    ∧ vitalsTotalPages (get_vitals bundle7Resp authedStore "st" 1 3).1
      = some (if 0 < (7 : Int) then ⌈((7 : Int) : ℚ) / ((3 : Int) : ℚ)⌉ else 1) :=
  pagination_total_pages bundle7Resp authedStore "st" 1 3 7
    rfl rfl rfl (by decide) (by decide) (by decide)

/-! ## Normalizer totality and the preferred-language IndexError (C1) -/

/-- C1: the medication, lab and vital normalizers are total (every
access is get-with-default) and on the empty resource `{}` — also as
it arises from a search bundle whose entry has no `resource` key —
every declared field holds its sentinel default; the patient
normalizer behaves the same on `{}`.  But the claimed universal "never
raises" fails on the code: on a well-typed, partially populated
Patient resource whose preferred communication has
`language.coding = []`, `get_preferred_language` raises `IndexError`
(main.py line 761 evaluates the `lang.get("coding", [{}])[0]` default
eagerly, even though `language.text` is present), so no record is
produced and `get_patient` answers HTTP 500 instead — the failing
input of the code bug. -/
theorem normalizers_sentinel_defaults_and_language_index_error :
    parsePatientRecord (Json.obj [])
      = some ⟨none, "Unknown", "Unknown", "Unknown", "N/A", "No address on file",
         "N/A", "N/A", "Unknown", "English"⟩
    ∧ normalizeMedication (Json.obj [])
      = ⟨"", "Unknown Medication", "No dosage information", [], "Unknown",
         "Unknown date", "Unknown", "", ⟨none, none, none⟩, "", ""⟩
    ∧ normalizeLab (Json.obj [])
      = ⟨"", "Unknown Test", "", "N/A", Json.str "N/A", "", "", "N/A", none, none,
         "Unknown", "Unknown date", "Normal", "", "", "", [], ""⟩
    ∧ normalizeVital (Json.obj [])
      = ⟨"", "Unknown Vital", "", "", "N/A", Json.str "N/A", "", [], "Unknown date",
         "Unknown", "", "", "", "", ""⟩
    ∧ (bundleResources (Json.obj [("entry", Json.arr [Json.obj []])])).map normalizeMedication
      = [normalizeMedication (Json.obj [])]
    ∧ (bundleResources (Json.obj [("entry", Json.arr [Json.obj []])])).map normalizeLab
      = [normalizeLab (Json.obj [])]
    ∧ (bundleResources (Json.obj [("entry", Json.arr [Json.obj []])])).map normalizeVital
      = [normalizeVital (Json.obj [])]
    ∧ getPreferredLanguage langBugPatient = none
    ∧ parsePatientRecord langBugPatient = none
    ∧ get_patient ⟨200, "", langBugPatient⟩ authedStore "st"
      = (Except.error ⟨500, "Error fetching patient: list index out of range"⟩, 1) :=
  ⟨rfl, rfl, rfl, rfl, rfl, rfl, rfl, rfl, rfl, rfl⟩

/-! ## Blood-pressure components (C6) -/

/-- C6 counterexample: on the two-component systolic/diastolic
Observation, the vital record's `value` key is not `"120/80"` — the
claimed conjunction fails, because the displayed value appends the
unit. -/
theorem bp_value_counterexample :
    ¬((normalizeVital bpObservation).value = "120/80"
      ∧ (normalizeVital bpObservation).unit = "mmHg"
      ∧ (normalizeVital bpObservation).components.length = 2) := by
  decide

/-- C6 (amended): on the systolic/diastolic Observation the record's
`rawValue` is `"120/80"`, its displayed `value` is `"120/80 mmHg"`
(the joined component values plus the first component's unit), its
`unit` is `"mmHg"`, and `components` holds exactly the two named
entries. -/
theorem bp_components_normalized :
    (normalizeVital bpObservation).value = "120/80 mmHg"
    ∧ (normalizeVital bpObservation).rawValue = Json.str "120/80"
    ∧ (normalizeVital bpObservation).unit = "mmHg"
    ∧ (normalizeVital bpObservation).components
        = [⟨"Systolic", Json.num 120, "mmHg"⟩, ⟨"Diastolic", Json.num 80, "mmHg"⟩] :=
  ⟨rfl, rfl, rfl, rfl⟩

/-! ## Lab interpretation defaults (C7) -/

/-- C7 counterexample: a lab Observation whose single interpretation
entry carries neither `text` nor any `coding` normalizes to the empty
interpretation, not `"Normal"`. -/
theorem lab_interp_counterexample :
    (normalizeLab labBareInterp).interpretation = ""
    ∧ (normalizeLab labBareInterp).interpretation ≠ "Normal" :=
  ⟨rfl, by decide⟩

/-- C7 (amended): the lab interpretation is the first
`interpretation[]` entry's truthy `text`; failing that, if the entry
has a non-empty `coding` list it is the first coding's `display` with
default `"Normal"`; `"Normal"` is also the default when the
`interpretation` field is absent altogether; but an entry with no text
and no coding yields the empty string, not `"Normal"`. -/
theorem lab_interpretation_cases (resource entry coding : Json) (rest restC : List Json) :
    (jGet resource "interpretation" = none →
       (normalizeLab resource).interpretation = "Normal")
    ∧ (jGet resource "interpretation" = some (Json.arr (entry :: rest)) →
        ((jGetStrD entry "text" "" ≠ "" →
            (normalizeLab resource).interpretation = jGetStrD entry "text" "")
         ∧ (jGetStrD entry "text" "" = "" →
             jGet entry "coding" = some (Json.arr (coding :: restC)) →
             (normalizeLab resource).interpretation = jGetStrD coding "display" "Normal")
         ∧ (jGetStrD entry "text" "" = "" →
             (jGet entry "coding" = none ∨ jGet entry "coding" = some (Json.arr [])) →
             (normalizeLab resource).interpretation = ""))) := by
  have hproj : ∀ r : Json, (normalizeLab r).interpretation = (labInterp r).1 :=
    fun r => rfl
  refine ⟨?_, ?_⟩
  · intro h
    rw [hproj]
    unfold labInterp
    rw [h]
  · intro h
    refine ⟨?_, ?_, ?_⟩
    · intro ht
      rw [hproj]
      unfold labInterp
      rw [h]
      have hne : (jGetStrD entry "text" "" == "") = false := beq_eq_false_iff_ne.mpr ht
      simp [hne]
    · intro ht hc
      rw [hproj]
      unfold labInterp
      rw [h]
      simp [ht, hc]
    · intro ht hc
      rw [hproj]
      unfold labInterp
      rw [h]
      rcases hc with hc | hc <;> simp [ht, hc]

/-- Witness for C7: an entry with `text = "High"` yields that text. -/
theorem lab_interpretation_cases_witness :
    (normalizeLab labTextInterp).interpretation
      = jGetStrD (Json.obj [("text", Json.str "High")]) "text" "" :=
  ((lab_interpretation_cases labTextInterp (Json.obj [("text", Json.str "High")])
      (Json.obj []) [] []).2 rfl).1 (by decide)

/-! ## Dosage summary and synthesized timing (C5) -/

/-- C5 counterexample: with first instruction text `"A"` and second
`"B"`, the summary is `"B"` (the last text, not the first); the
synthesized timing reads `"2x per 1 d"`, not `"2x per 1d"`; and the
third instruction — whose `timing.code` is truthy but lacks `text`,
with a present `timing.repeat` — gets timing `""`, not a synthesized
string. -/
theorem dosage_counterexample :
    (normalizeMedication medResourceC5).dosage ≠ "A"
    ∧ (normalizeMedication medResourceC5).dosage = "B"
    ∧ (normalizeMedication medResourceC5).dosageDetails.map DoseDetail.timing
        = ["", "2x per 1 d", ""]
    ∧ "2x per 1 d" ≠ "2x per 1d" := by
  refine ⟨by decide, rfl, rfl, by decide⟩

theorem getD_getLast?_cons {α : Type} : ∀ (l : List α) (a d : α),
    ((a :: l).getLast?).getD d = (l.getLast?).getD a := by
  intro l
  induction l with
  | nil => intro a d; rfl
  | cons b t ih =>
    intro a d
    rw [List.getLast?_cons_cons, ih b d, ← ih b a]

theorem foldl_text_eq_lastTextD (instructions : List Json) : ∀ dflt : String,
    instructions.foldl (fun acc d => jGetStrD d "text" acc) dflt
      = lastTextD dflt instructions := by
  induction instructions with
  | nil => intro dflt; rfl
  | cons d t ih =>
    intro dflt
    rw [List.foldl_cons, ih]
    unfold lastTextD
    cases hd : jGet d "text" with
    | none =>
      simp only [List.filterMap_cons, hd]
      simp [jGetStrD, hd]
    | some v =>
      cases v <;> simp only [List.filterMap_cons, hd] <;>
        first
        | (rw [getD_getLast?_cons]; simp [jGetStrD, hd])
        | simp [jGetStrD, hd]

/-- C5 (amended): for a MedicationRequest with a non-empty
`dosageInstruction` array, the dosage summary equals the `text` of the
*last* instruction carrying a `text` key (default `"No dosage
information"`), the structured details are one per instruction, and
the synthesized timing — produced exactly when `timing.code` is falsy
(absent or empty) and `timing.repeat` truthy — has the form
`"{frequency}x per {period} {periodUnit}"`, with a space before the
unit. -/
theorem dosage_summary_and_timing (resource : Json) (instrs : List Json)
    (h : jGet resource "dosageInstruction" = some (Json.arr instrs))
    (hne : instrs ≠ []) :
    (normalizeMedication resource).dosage = lastTextD "No dosage information" instrs
    ∧ (normalizeMedication resource).dosageDetails = instrs.map mkDoseDetail
    ∧ ∀ d ∈ instrs, ∀ timing, jGet d "timing" = some timing → pyTruthy timing = true →
        optTruthy (jGet timing "code") = false →
        optTruthy (jGet timing "repeat") = true →
        (mkDoseDetail d).timing
          = pyStr (jGetD (jGetD timing "repeat" (Json.obj [])) "frequency" (Json.str ""))
            ++ "x per "
            ++ pyStr (jGetD (jGetD timing "repeat" (Json.obj [])) "period" (Json.str ""))
            ++ " "
            ++ pyStr (jGetD (jGetD timing "repeat" (Json.obj [])) "periodUnit" (Json.str "")) := by
  have hinstr : (if optTruthy (jGet resource "dosageInstruction") then
      asArr (jGetD resource "dosageInstruction" (Json.arr [])) else []) = instrs := by
    cases instrs with
    | nil => exact absurd rfl hne
    | cons a t => simp [h, optTruthy, pyTruthy, jGetD, asArr]
  refine ⟨?_, ?_, ?_⟩
  · show dosageSummary (if optTruthy (jGet resource "dosageInstruction") then
      asArr (jGetD resource "dosageInstruction" (Json.arr [])) else []) = _
    rw [hinstr]
    exact foldl_text_eq_lastTextD instrs _
  · show (if optTruthy (jGet resource "dosageInstruction") then
      asArr (jGetD resource "dosageInstruction" (Json.arr [])) else []).map mkDoseDetail = _
    rw [hinstr]
  · intro d _hd timing htm htruthy hcode hrep
    show doseTiming d = _
    have h1 : optTruthy (some timing) = true := by
      simpa [optTruthy] using htruthy
    unfold doseTiming
    simp [h1, htm, jGetD, hcode, hrep]

/-- Witness for C5 on the concrete three-instruction resource. -/
theorem dosage_summary_and_timing_witness :
    (normalizeMedication medResourceC5).dosage
      = lastTextD "No dosage information" dosageInstrsC5 :=
  (dosage_summary_and_timing medResourceC5 dosageInstrsC5 rfl (List.cons_ne_nil _ _)).1
